import Mathlib

/-
Shallow embedding of the go-openai-client repository.

The embedded code is the `openai` package's remote backend (`Client` and its
methods `ChatCompletion`, `SendMessage`, `IsAvailable`, `Configure`, plus the
constructor `NewClient`), together with a conversation controller modelled
from the specification (the `chat` package's source is not in the source
tree; only its callers are).

Effects are made explicit:
- the HTTP transport is a per-call world value (`HttpWorld` / `ProbeWorld`)
  holding the outcome of request construction, of sending, and of reading
  the provider's reply;
- a reply body is carried together with the two ways the code may try to
  unmarshal it (as an error object, as a completion response), mirroring
  the two `json.Unmarshal` target shapes;
- each operation returns, besides its Go result, the final client value and
  the trace of outbound requests handed to the HTTP client, so that
  "no outbound call" and "state unchanged" are statable.

Go machine types: `int`/`int64`/`time.Duration` are embedded as `Int`
(no arithmetic in the embedded code ever overflows or wraps: the code only
copies these values). `*float64` fields are embedded as `Option Rat`; the
code never performs floating-point arithmetic on them, it only passes them
through, so any type with decidable equality is faithful. Errors created by
`fmt.Errorf` are embedded as an inductive with one constructor per creation
site.
-/

namespace OpenAI

/-- A chat message: role ("system", "user" or "assistant") and content. -/
structure Message where
  role : String
  content : String
deriving DecidableEq, Repr

/-- ChatCompletionRequest: model, messages, optional max_tokens,
temperature, top_p, and the stream flag. -/
structure ChatCompletionRequest where
  model : String
  messages : List Message
  maxTokens : Option Int
  temperature : Option Rat
  topP : Option Rat
  stream : Bool
deriving DecidableEq, Repr

/-- One candidate completion; the source reads only its Message field. -/
structure Choice where
  message : Message
deriving DecidableEq, Repr

/-- Usage counters returned with a completion. -/
structure Usage where
  promptTokens : Int
  completionTokens : Int
  totalTokens : Int
deriving DecidableEq, Repr

/-- ChatCompletionResponse: the fields the source reads
(Model, Created, Choices, Usage). -/
structure ChatCompletionResponse where
  model : String
  created : Int
  choices : List Choice
  usage : Usage
deriving DecidableEq, Repr

/-- Errors produced by the client, one constructor per `fmt.Errorf`
creation site. (`json.Marshal` of the outbound struct is total in the
model, since no NaN or infinite float is representable here, so the
"failed to marshal request" site is unreachable and has no constructor.) -/
inductive ClientError where
  /-- "model is required" / "messages are required" -/
  | validation (msg : String)
  /-- "failed to create request": http.NewRequestWithContext failed -/
  | requestCreation
  /-- "failed to send request": httpClient.Do failed -/
  | sendFailure (msg : String)
  /-- "failed to read response": io.ReadAll failed -/
  | readFailure (msg : String)
  /-- "OpenAI API error (status): message" with the unmarshalled provider message -/
  | apiError (status : Nat) (msg : String)
  /-- "OpenAI API error (status): raw body" when the body does not unmarshal as an error object -/
  | apiErrorRaw (status : Nat) (raw : String)
  /-- "failed to parse response" -/
  | parseFailure
  /-- "no response choices returned" -/
  | noChoices
deriving DecidableEq, Repr

/-- Is this a ValidationError in the spec's classification? -/
def ClientError.isValidation : ClientError → Bool
  | .validation _ => true
  | _ => false

/-- Is this a TransportError in the spec's classification
("outbound call failed or returned non-success status")? -/
def ClientError.isTransport : ClientError → Bool
  | .sendFailure _ => true
  | .readFailure _ => true
  | .apiError _ _ => true
  | .apiErrorRaw _ _ => true
  | _ => false

/-- The HTTP status an error carries, when it carries one. -/
def ClientError.statusOf : ClientError → Option Nat
  | .apiError s _ => some s
  | .apiErrorRaw s _ => some s
  | _ => none

/-- The provider error object shape: error.message, error.type, error.code. -/
structure ErrorObj where
  message : String
  etype : String
  code : String
deriving DecidableEq, Repr

/-- A fully received reply body, together with the results of the two
unmarshal attempts the code may make on it: into the error-object shape
and into the completion-response shape. -/
structure Body where
  raw : String
  asError : Option ErrorObj
  asCompletion : Option ChatCompletionResponse
deriving DecidableEq, Repr

/-- Outcome of one httpClient.Do call followed by io.ReadAll. -/
inductive DoOutcome where
  /-- httpClient.Do returned an error -/
  | sendFailure (msg : String)
  /-- Do succeeded with this status, but io.ReadAll of the body failed -/
  | readFailure (status : Nat) (msg : String)
  /-- Do succeeded and the body was fully read -/
  | response (status : Nat) (body : Body)
deriving DecidableEq, Repr

/-- Per-call transport world for ChatCompletion. -/
structure HttpWorld where
  /-- whether http.NewRequestWithContext fails -/
  newRequestFails : Bool
  outcome : DoOutcome
deriving DecidableEq, Repr

/-- The outbound JSON payload, mirroring the anonymous `openAIRequest`
struct marshalled by ChatCompletion. -/
structure OpenAIRequest where
  model : String
  messages : List Message
  maxTokens : Option Int
  temperature : Option Rat
  topP : Option Rat
  stream : Bool
deriving DecidableEq, Repr

/-- An outbound HTTP request handed to httpClient.Do. -/
structure HttpRequest where
  method : String
  url : String
  contentType : Option String
  authorization : String
  payload : Option OpenAIRequest
deriving DecidableEq, Repr

/-- The remote backend's state: apiKey, baseURL, default model, and the
HTTP client's timeout (time.Duration, in nanoseconds). -/
structure Client where
  apiKey : String
  baseURL : String
  model : String
  timeout : Int
deriving DecidableEq, Repr

/-- Config for NewClient. MaxRetries is present in the source but never
read by any method. -/
structure Config where
  apiKey : String
  baseURL : String
  model : String
  timeout : Int
  maxRetries : Int
deriving DecidableEq, Repr

/-- time.Second in nanoseconds. -/
def timeSecond : Int := 1000000000

/-- http.StatusOK. -/
def statusOK : Nat := 200

/-- NewClient: defaults baseURL to the OpenAI endpoint when empty, model to
"gpt-4" when empty, timeout to 30 seconds when zero. -/
def NewClient (config : Config) : Client :=
  let baseURL := if config.baseURL = "" then "https://api.openai.com/v1" else config.baseURL
  let model := if config.model = "" then "gpt-4" else config.model
  let timeout := if config.timeout = 0 then 30 * timeSecond else config.timeout
  { apiKey := config.apiKey, baseURL := baseURL, model := model, timeout := timeout }

instance {ε α : Type} [DecidableEq ε] [DecidableEq α] : DecidableEq (Except ε α) := fun a b =>
  match a, b with
  | .error e, .error f =>
    if h : e = f then isTrue (by rw [h]) else isFalse (by simp [h])
  | .error _, .ok _ => isFalse (by simp)
  | .ok _, .error _ => isFalse (by simp)
  | .ok x, .ok y =>
    if h : x = y then isTrue (by rw [h]) else isFalse (by simp [h])

/-- Result of a ChatCompletion call: the client afterwards (the method
never writes a field, so it always equals the receiver), the Go result,
whether the request body was marshalled, and the trace of requests handed
to httpClient.Do. -/
structure ChatOutcome where
  client : Client
  result : Except ClientError ChatCompletionResponse
  marshalled : Bool
  sent : List HttpRequest
deriving DecidableEq, Repr

/-- Client.ChatCompletion: validates model and messages, marshals the
request, builds the HTTP request, sends it, and interprets status and
body exactly as the source does. -/
def Client.ChatCompletion (c : Client) (req : ChatCompletionRequest) (w : HttpWorld) :
    ChatOutcome :=
  if req.model = "" then
    ⟨c, .error (.validation "model is required"), false, []⟩
  else if req.messages.length = 0 then
    ⟨c, .error (.validation "messages are required"), false, []⟩
  else
    let openAIRequest : OpenAIRequest :=
      ⟨req.model, req.messages, req.maxTokens, req.temperature, req.topP, req.stream⟩
    if w.newRequestFails then
      ⟨c, .error .requestCreation, true, []⟩
    else
      let httpReq : HttpRequest :=
        ⟨"POST", c.baseURL ++ "/chat/completions", some "application/json",
          "Bearer " ++ c.apiKey, some openAIRequest⟩
      match w.outcome with
      | .sendFailure msg => ⟨c, .error (.sendFailure msg), true, [httpReq]⟩
      | .readFailure _ msg => ⟨c, .error (.readFailure msg), true, [httpReq]⟩
      | .response status body =>
        if status ≠ statusOK then
          match body.asError with
          | some eo => ⟨c, .error (.apiError status eo.message), true, [httpReq]⟩
          | none => ⟨c, .error (.apiErrorRaw status body.raw), true, [httpReq]⟩
        else
          match body.asCompletion with
          | some resp => ⟨c, .ok resp, true, [httpReq]⟩
          | none => ⟨c, .error .parseFailure, true, [httpReq]⟩

/-- Legacy Request: the flat field set SendMessage reads. -/
structure Request where
  model : String
  messages : List Message
  maxTokens : Option Int
  temperature : Option Rat
  topP : Option Rat
  stream : Bool
deriving DecidableEq, Repr

/-- Legacy Response. Timestamp is time.Unix(created, 0), carried here as
the created value itself; the zero Response has timestamp 0. -/
structure Response where
  content : String
  tokensUsed : Int
  model : String
  timestamp : Int
  error : Option ClientError
deriving DecidableEq, Repr

/-- The conversion SendMessage performs inline: copy the legacy fields
into a ChatCompletionRequest, then substitute the client's default model
if none was specified. -/
def Client.toChatRequest (c : Client) (req : Request) : ChatCompletionRequest :=
  let chatReq : ChatCompletionRequest :=
    ⟨req.model, req.messages, req.maxTokens, req.temperature, req.topP, req.stream⟩
  if chatReq.model = "" then { chatReq with model := c.model } else chatReq

/-- Result of a legacy SendMessage call: client afterwards, the returned
*Response (some ↔ non-nil), the returned error, and the outbound trace. -/
structure LegacyOutcome where
  client : Client
  response : Option Response
  err : Option ClientError
  sent : List HttpRequest
deriving DecidableEq, Repr

/-- Client.SendMessage: converts the legacy request, calls ChatCompletion,
and unwraps the first choice into a legacy Response; on any failure it
returns a non-nil Response holding the error, plus the error. -/
def Client.SendMessage (c : Client) (req : Request) (w : HttpWorld) : LegacyOutcome :=
  let chatReq := c.toChatRequest req
  let out := c.ChatCompletion chatReq w
  match out.result with
  | .error e => ⟨out.client, some ⟨"", 0, "", 0, some e⟩, some e, out.sent⟩
  | .ok chatResp =>
    match chatResp.choices with
    | [] => ⟨out.client, some ⟨"", 0, "", 0, some .noChoices⟩, some .noChoices, out.sent⟩
    | ch :: _ =>
      ⟨out.client,
        some ⟨ch.message.content, chatResp.usage.totalTokens, chatResp.model,
          chatResp.created, none⟩,
        none, out.sent⟩

/-- Outcome of the single GET the liveness probe performs (no body read). -/
inductive ProbeOutcome where
  | sendFailure (msg : String)
  | response (status : Nat)
deriving DecidableEq, Repr

/-- Per-call transport world for IsAvailable. -/
structure ProbeWorld where
  newRequestFails : Bool
  outcome : ProbeOutcome
deriving DecidableEq, Repr

/-- Client.IsAvailable: GET /models; false if request construction or the
call fails, else whether the status is 200. Total, returns a Bool. -/
def Client.IsAvailable (c : Client) (w : ProbeWorld) : Bool :=
  if w.newRequestFails then false
  else
    match w.outcome with
    | .sendFailure _ => false
    | .response status => status == statusOK

/-- A dynamically typed configuration value (interface\x7b\x7d): a string,
a time.Duration, or a value of any other type. -/
inductive ConfigValue where
  | str (s : String)
  | dur (d : Int)
  | other
deriving DecidableEq, Repr

/-- The api_key statement of Configure: update when the option is present,
is a string, and is non-empty. -/
def applyApiKey (c : Client) (v : Option ConfigValue) : Client :=
  match v with
  | some (.str s) => if s ≠ "" then { c with apiKey := s } else c
  | _ => c

/-- The base_url statement of Configure. -/
def applyBaseURL (c : Client) (v : Option ConfigValue) : Client :=
  match v with
  | some (.str s) => if s ≠ "" then { c with baseURL := s } else c
  | _ => c

/-- The model statement of Configure. -/
def applyModel (c : Client) (v : Option ConfigValue) : Client :=
  match v with
  | some (.str s) => if s ≠ "" then { c with model := s } else c
  | _ => c

/-- The timeout statement of Configure: update when the option is present,
is a time.Duration, and is positive. -/
def applyTimeout (c : Client) (v : Option ConfigValue) : Client :=
  match v with
  | some (.dur d) => if d > 0 then { c with timeout := d } else c
  | _ => c

/-- Client.Configure: applies the api_key, base_url, model and timeout
options in order — each only when present, of the right dynamic type, and
non-empty (positive for timeout) — then fails if the apiKey is empty. -/
def Client.Configure (c : Client) (config : String → Option ConfigValue) :
    Client × Option ClientError :=
  let c1 := applyApiKey c (config "api_key")
  let c2 := applyBaseURL c1 (config "base_url")
  let c3 := applyModel c2 (config "model")
  let c4 := applyTimeout c3 (config "timeout")
  if c4.apiKey = "" then (c4, some (.validation "api_key is required")) else (c4, none)

end OpenAI

namespace Chat

open OpenAI

/-- A backend's ChatCompletion capability, abstracted for the controller:
the worlds are absorbed into the function, one result per request. -/
def CompletionBackend : Type := ChatCompletionRequest → Except ClientError ChatCompletionResponse

/-- Modelled from the spec: the chat package's ControllerConfig
(DefaultModel, MaxTokens, Temperature); its source is not in the tree. -/
structure ControllerConfig where
  defaultModel : String
  maxTokens : Int
  temperature : Rat
deriving DecidableEq, Repr

/-- Modelled from the spec: a conversation is an opaque unique id plus an
ordered, append-only sequence of messages (ids from a monotonic counter). -/
structure Conversation where
  id : Nat
  messages : List Message
deriving DecidableEq, Repr

/-- Modelled from the spec: the controller owns the conversation mapping
and the aggregate counters (total messages, total conversations). -/
structure Controller where
  conversations : List (Nat × Conversation)
  totalMessages : Nat
  totalConversations : Nat
  nextID : Nat
  config : ControllerConfig
deriving DecidableEq, Repr

/-- Lookup in the controller's conversation mapping. -/
def lookupConv : List (Nat × Conversation) → Nat → Option Conversation
  | [], _ => none
  | (k, v) :: rest, id => if k = id then some v else lookupConv rest id

/-- Replace the conversation stored under the given id. -/
def updateConv (l : List (Nat × Conversation)) (id : Nat) (c : Conversation) :
    List (Nat × Conversation) :=
  l.map fun p => if p.1 = id then (id, c) else p

/-- Modelled from the spec: NewController starts with no conversations and
zero counters. -/
def NewController (config : ControllerConfig) : Controller :=
  ⟨[], 0, 0, 0, config⟩

/-- Modelled from the spec: CreateConversation allocates a new unique id,
seeds history with a system message if a prompt is provided, registers the
conversation, and increments the conversation counter. -/
def Controller.CreateConversation (ct : Controller) (systemPrompt : Option String) :
    Controller × Conversation :=
  let history : List Message := match systemPrompt with
    | some p => [⟨"system", p⟩]
    | none => []
  let conv : Conversation := ⟨ct.nextID, history⟩
  ({ ct with
      conversations := ct.conversations ++ [(conv.id, conv)],
      nextID := ct.nextID + 1,
      totalConversations := ct.totalConversations + 1 },
    conv)

/-- Modelled from the spec: the CompletionRequest the controller builds
from a conversation's full history and its configured defaults. -/
def Controller.buildRequest (ct : Controller) (conv : Conversation) : ChatCompletionRequest :=
  ⟨ct.config.defaultModel, conv.messages, some ct.config.maxTokens,
    some ct.config.temperature, none, false⟩

/-- Controller-level errors. -/
inductive ChatError where
  | notFound
  | backend (e : ClientError)
  | noChoices
deriving DecidableEq, Repr

/-- The controller's response: the assistant message and usage counters. -/
structure ChatResponse where
  message : Message
  usage : Usage
deriving DecidableEq, Repr

/-- Modelled from the spec: SendMessage fails with NotFound on an unknown
id; otherwise appends the user message, builds a request from the full
history, invokes the backend, and on success appends the returned
assistant message and increments the message counter by 2. On backend
failure the user message remains appended and the counter is unchanged. -/
def Controller.SendMessage (ct : Controller) (backend : CompletionBackend)
    (conversationID : Nat) (text : String) : Controller × Except ChatError ChatResponse :=
  match lookupConv ct.conversations conversationID with
  | none => (ct, .error .notFound)
  | some conv =>
    let conv1 : Conversation := { conv with messages := conv.messages ++ [⟨"user", text⟩] }
    let ct1 : Controller := { ct with conversations := updateConv ct.conversations conversationID conv1 }
    match backend (ct1.buildRequest conv1) with
    | .error e => (ct1, .error (.backend e))
    | .ok resp =>
      match resp.choices with
      | [] => (ct1, .error .noChoices)
      | ch :: _ =>
        let conv2 : Conversation := { conv1 with messages := conv1.messages ++ [ch.message] }
        ({ ct1 with
            conversations := updateConv ct1.conversations conversationID conv2,
            totalMessages := ct1.totalMessages + 2 },
          .ok ⟨ch.message, resp.usage⟩)

/-- Number of messages with the given role. -/
def countRole (r : String) (msgs : List Message) : Nat :=
  (msgs.filter fun m => m.role = r).length

/-- Modelled from the spec: the per-conversation summary. -/
structure ConversationSummary where
  messageCount : Nat
  userMessages : Nat
  assistantMessages : Nat
  estimatedTokens : Nat
deriving DecidableEq, Repr

/-- Modelled from the spec: GetConversationSummary scans the message
sequence; estimated tokens is a deterministic approximation proportional
to the total character count. -/
def Controller.GetConversationSummary (ct : Controller) (id : Nat) :
    Option ConversationSummary :=
  match lookupConv ct.conversations id with
  | none => none
  | some conv =>
    some ⟨conv.messages.length,
      countRole "user" conv.messages,
      countRole "assistant" conv.messages,
      (conv.messages.foldl (fun a m => a + m.content.length) 0) / 4⟩

/-- Send each message in turn to the given conversation; the Bool records
whether every call succeeded (stopping at the first failure). -/
def sendAll (backend : CompletionBackend) (id : Nat) :
    List String → Controller → Controller × Bool
  | [], ct => (ct, true)
  | t :: rest, ct =>
    let p := ct.SendMessage backend id t
    match p.2 with
    | .ok _ => sendAll backend id rest p.1
    | .error _ => (p.1, false)

end Chat

namespace OpenAI

/-- Does this result hold a ValidationError? -/
def isValidationResult : Except ClientError ChatCompletionResponse → Bool
  | .error e => e.isValidation
  | .ok _ => false

/-- The error the non-success-status branch produces: the provider's
message when the body unmarshals as an error object, else the raw body. -/
def apiFailure (status : Nat) (body : Body) : ClientError :=
  match body.asError with
  | some eo => .apiError status eo.message
  | none => .apiErrorRaw status body.raw

/-- Concrete client used by witnesses. -/
def wClient : Client := ⟨"key", "https://api.openai.com/v1", "gpt-4", 30000000000⟩

/-- Concrete successful completion response used by witnesses. -/
def wResp : ChatCompletionResponse := ⟨"gpt-4", 7, [⟨⟨"assistant", "hi"⟩⟩], ⟨1, 2, 3⟩⟩

/-- Concrete world in which the provider replies 200 with wResp. -/
def wOkWorld : HttpWorld := ⟨false, .response 200 ⟨"raw", none, some wResp⟩⟩

end OpenAI

namespace Chat

open OpenAI

/-- Concrete controller config used by witnesses. -/
def wCfg : ControllerConfig := ⟨"m", 100, 0⟩

/-- Concrete backend used by witnesses: always returns one assistant choice. -/
def wBackend : CompletionBackend := fun _ => .ok wResp

/-- Controller state after creating a conversation seeded with "sys" in a
fresh controller. -/
def wCt1 : Controller := ⟨[(0, ⟨0, [⟨"system", "sys"⟩]⟩)], 0, 1, 1, wCfg⟩

/-- The conversation created by that call. -/
def wConv : Conversation := ⟨0, [⟨"system", "sys"⟩]⟩

/-- Controller state after one successful send of "a" to that conversation. -/
def wCtN : Controller :=
  ⟨[(0, ⟨0, [⟨"system", "sys"⟩, ⟨"user", "a"⟩, ⟨"assistant", "hi"⟩]⟩)], 2, 1, 1, wCfg⟩

end Chat

namespace OpenAI

/-- C1: a ChatCompletion request with an empty message list or an empty
model name fails with a ValidationError, marshals nothing, sends nothing,
and leaves the client unchanged. -/
theorem chatCompletion_validation_no_outbound (c : Client) (req : ChatCompletionRequest)
    (w : HttpWorld) (h : req.messages = [] ∨ req.model = "") :
    isValidationResult (c.ChatCompletion req w).result = true ∧
    (c.ChatCompletion req w).marshalled = false ∧
    (c.ChatCompletion req w).sent = [] ∧
    (c.ChatCompletion req w).client = c := by
  rcases h with h | h
  · by_cases hm : req.model = "" <;>
      simp [Client.ChatCompletion, h, hm, isValidationResult, ClientError.isValidation]
  · simp [Client.ChatCompletion, h, isValidationResult, ClientError.isValidation]

/-- Witness for C1 at a concrete empty-message request. -/
theorem chatCompletion_validation_no_outbound_witness :
    ((⟨"gpt-4", [], none, none, none, false⟩ : ChatCompletionRequest).messages = [] ∨
      (⟨"gpt-4", [], none, none, none, false⟩ : ChatCompletionRequest).model = "") ∧
    (isValidationResult
        (wClient.ChatCompletion ⟨"gpt-4", [], none, none, none, false⟩ wOkWorld).result = true ∧
      (wClient.ChatCompletion ⟨"gpt-4", [], none, none, none, false⟩ wOkWorld).marshalled = false ∧
      (wClient.ChatCompletion ⟨"gpt-4", [], none, none, none, false⟩ wOkWorld).sent = [] ∧
      (wClient.ChatCompletion ⟨"gpt-4", [], none, none, none, false⟩ wOkWorld).client = wClient) :=
  ⟨Or.inl rfl,
    chatCompletion_validation_no_outbound wClient ⟨"gpt-4", [], none, none, none, false⟩
      wOkWorld (Or.inl rfl)⟩

/-- C2: SendMessage forwards the caller's model when non-empty and the
client's default model when empty; all other fields are passed through
unchanged, and the outbound trace is exactly that of ChatCompletion on
the converted request. -/
theorem sendMessage_forwards_request (c : Client) (req : Request) (w : HttpWorld) :
    (c.toChatRequest req).model = (if req.model = "" then c.model else req.model) ∧
    (c.toChatRequest req).messages = req.messages ∧
    (c.toChatRequest req).maxTokens = req.maxTokens ∧
    (c.toChatRequest req).temperature = req.temperature ∧
    (c.toChatRequest req).topP = req.topP ∧
    (c.toChatRequest req).stream = req.stream ∧
    (c.SendMessage req w).sent = (c.ChatCompletion (c.toChatRequest req) w).sent := by
  refine ⟨?_, ?_, ?_, ?_, ?_, ?_, ?_⟩
  · by_cases h : req.model = "" <;> simp [Client.toChatRequest, h]
  · by_cases h : req.model = "" <;> simp [Client.toChatRequest, h]
  · by_cases h : req.model = "" <;> simp [Client.toChatRequest, h]
  · by_cases h : req.model = "" <;> simp [Client.toChatRequest, h]
  · by_cases h : req.model = "" <;> simp [Client.toChatRequest, h]
  · by_cases h : req.model = "" <;> simp [Client.toChatRequest, h]
  · simp only [Client.SendMessage]
    rcases hr : (c.ChatCompletion (c.toChatRequest req) w).result with e | r
    · simp [hr]
    · rcases hc : r.choices with _ | ⟨ch, rest⟩ <;> simp [hr, hc]

/-- C5: IsAvailable is total with result true exactly when request
construction succeeds and the probe returns status 200; on any failure
reaching the provider it returns false. -/
theorem isAvailable_iff_probe_ok (c : Client) (w : ProbeWorld) :
    c.IsAvailable w = true ↔
      (w.newRequestFails = false ∧ w.outcome = ProbeOutcome.response 200) := by
  rcases w with ⟨nrf, oc⟩
  cases nrf <;> rcases oc with msg | st <;>
    simp [Client.IsAvailable, statusOK, ProbeOutcome.response.injEq]

/-- C7: NewClient applies a 30-second timeout when the configured timeout
is zero and the default model "gpt-4" when the configured model is empty;
set values are used unchanged, and the credential passes through. -/
theorem newClient_defaults (cfg : Config) :
    (NewClient cfg).timeout = (if cfg.timeout = 0 then 30 * timeSecond else cfg.timeout) ∧
    (NewClient cfg).model = (if cfg.model = "" then "gpt-4" else cfg.model) ∧
    (NewClient cfg).apiKey = cfg.apiKey := by
  simp [NewClient]

theorem applyApiKey_apiKey (c : Client) (v : Option ConfigValue) :
    (applyApiKey c v).apiKey =
      (match v with
        | some (.str s) => if s ≠ "" then s else c.apiKey
        | _ => c.apiKey) := by
  unfold applyApiKey; repeat' split <;> simp_all

theorem applyApiKey_baseURL (c : Client) (v : Option ConfigValue) :
    (applyApiKey c v).baseURL = c.baseURL := by
  unfold applyApiKey; (repeat' split) <;> rfl

theorem applyApiKey_model (c : Client) (v : Option ConfigValue) :
    (applyApiKey c v).model = c.model := by
  unfold applyApiKey; (repeat' split) <;> rfl

theorem applyApiKey_timeout (c : Client) (v : Option ConfigValue) :
    (applyApiKey c v).timeout = c.timeout := by
  unfold applyApiKey; (repeat' split) <;> rfl

theorem applyBaseURL_baseURL (c : Client) (v : Option ConfigValue) :
    (applyBaseURL c v).baseURL =
      (match v with
        | some (.str s) => if s ≠ "" then s else c.baseURL
        | _ => c.baseURL) := by
  unfold applyBaseURL; repeat' split <;> simp_all

theorem applyBaseURL_apiKey (c : Client) (v : Option ConfigValue) :
    (applyBaseURL c v).apiKey = c.apiKey := by
  unfold applyBaseURL; (repeat' split) <;> rfl

theorem applyBaseURL_model (c : Client) (v : Option ConfigValue) :
    (applyBaseURL c v).model = c.model := by
  unfold applyBaseURL; (repeat' split) <;> rfl

theorem applyBaseURL_timeout (c : Client) (v : Option ConfigValue) :
    (applyBaseURL c v).timeout = c.timeout := by
  unfold applyBaseURL; (repeat' split) <;> rfl

theorem applyModel_model (c : Client) (v : Option ConfigValue) :
    (applyModel c v).model =
      (match v with
        | some (.str s) => if s ≠ "" then s else c.model
        | _ => c.model) := by
  unfold applyModel; repeat' split <;> simp_all

theorem applyModel_apiKey (c : Client) (v : Option ConfigValue) :
    (applyModel c v).apiKey = c.apiKey := by
  unfold applyModel; (repeat' split) <;> rfl

theorem applyModel_baseURL (c : Client) (v : Option ConfigValue) :
    (applyModel c v).baseURL = c.baseURL := by
  unfold applyModel; (repeat' split) <;> rfl

theorem applyModel_timeout (c : Client) (v : Option ConfigValue) :
    (applyModel c v).timeout = c.timeout := by
  unfold applyModel; (repeat' split) <;> rfl

theorem applyTimeout_timeout (c : Client) (v : Option ConfigValue) :
    (applyTimeout c v).timeout =
      (match v with
        | some (.dur d) => if d > 0 then d else c.timeout
        | _ => c.timeout) := by
  unfold applyTimeout; repeat' split <;> simp_all

theorem applyTimeout_apiKey (c : Client) (v : Option ConfigValue) :
    (applyTimeout c v).apiKey = c.apiKey := by
  unfold applyTimeout; (repeat' split) <;> rfl

theorem applyTimeout_baseURL (c : Client) (v : Option ConfigValue) :
    (applyTimeout c v).baseURL = c.baseURL := by
  unfold applyTimeout; (repeat' split) <;> rfl

theorem applyTimeout_model (c : Client) (v : Option ConfigValue) :
    (applyTimeout c v).model = c.model := by
  unfold applyTimeout; (repeat' split) <;> rfl

theorem configure_apiKey (c : Client) (config : String → Option ConfigValue) :
    (c.Configure config).1.apiKey =
      (match config "api_key" with
        | some (.str s) => if s ≠ "" then s else c.apiKey
        | _ => c.apiKey) := by
  simp only [Client.Configure]
  split <;>
    simp [applyTimeout_apiKey, applyModel_apiKey, applyBaseURL_apiKey, applyApiKey_apiKey]

theorem configure_baseURL (c : Client) (config : String → Option ConfigValue) :
    (c.Configure config).1.baseURL =
      (match config "base_url" with
        | some (.str s) => if s ≠ "" then s else c.baseURL
        | _ => c.baseURL) := by
  simp only [Client.Configure]
  split <;>
    simp [applyTimeout_baseURL, applyModel_baseURL, applyBaseURL_baseURL, applyApiKey_baseURL]

theorem configure_model (c : Client) (config : String → Option ConfigValue) :
    (c.Configure config).1.model =
      (match config "model" with
        | some (.str s) => if s ≠ "" then s else c.model
        | _ => c.model) := by
  simp only [Client.Configure]
  split <;>
    simp [applyTimeout_model, applyModel_model, applyBaseURL_model, applyApiKey_model]

theorem configure_timeout (c : Client) (config : String → Option ConfigValue) :
    (c.Configure config).1.timeout =
      (match config "timeout" with
        | some (.dur d) => if d > 0 then d else c.timeout
        | _ => c.timeout) := by
  simp only [Client.Configure]
  split <;>
    simp [applyTimeout_timeout, applyModel_timeout, applyBaseURL_timeout, applyApiKey_timeout]

theorem configure_err (c : Client) (config : String → Option ConfigValue) :
    (c.Configure config).2 =
      (if (c.Configure config).1.apiKey = "" then some (.validation "api_key is required")
        else none) := by
  simp only [Client.Configure]
  split <;> simp_all

/-- C3: Configure updates each of the four recognized fields exactly when
its option is present with a value of the right type that is non-empty
(positive for the timeout), leaves the other fields unchanged, and returns
an error exactly when the credential is empty after all updates. -/
theorem configure_updates_and_credential_check (c : Client)
    (config : String → Option ConfigValue) :
    (c.Configure config).1.apiKey =
      (match config "api_key" with
        | some (.str s) => if s ≠ "" then s else c.apiKey
        | _ => c.apiKey) ∧
    (c.Configure config).1.baseURL =
      (match config "base_url" with
        | some (.str s) => if s ≠ "" then s else c.baseURL
        | _ => c.baseURL) ∧
    (c.Configure config).1.model =
      (match config "model" with
        | some (.str s) => if s ≠ "" then s else c.model
        | _ => c.model) ∧
    (c.Configure config).1.timeout =
      (match config "timeout" with
        | some (.dur d) => if d > 0 then d else c.timeout
        | _ => c.timeout) ∧
    (c.Configure config).2 =
      (if (c.Configure config).1.apiKey = "" then some (.validation "api_key is required")
        else none) :=
  ⟨configure_apiKey c config, configure_baseURL c config, configure_model c config,
    configure_timeout c config, configure_err c config⟩

/-- C6: NewClient never rejects an empty credential (the key passes
through unchanged), but a subsequent Configure that supplies no non-empty
credential reports the missing api_key as an error. -/
theorem missing_credential_reported (cfg : Config) (config : String → Option ConfigValue)
    (hkey : cfg.apiKey = "")
    (hmap : ∀ s, config "api_key" = some (.str s) → s = "") :
    (NewClient cfg).apiKey = "" ∧
    ((NewClient cfg).Configure config).2 = some (.validation "api_key is required") := by
  have hpass : (NewClient cfg).apiKey = "" := by simp [NewClient, hkey]
  refine ⟨hpass, ?_⟩
  have hk : ((NewClient cfg).Configure config).1.apiKey = "" := by
    rw [configure_apiKey]
    rcases h : config "api_key" with _ | v
    · simpa [hpass]
    · rcases v with s | d | _
      · have := hmap s h
        simp [this, hpass]
      · simpa [hpass]
      · simpa [hpass]
  rw [configure_err, hk]
  simp

/-- Witness for C6: an all-empty Config and an empty option mapping. -/
theorem missing_credential_reported_witness :
    ((⟨"", "", "", 0, 0⟩ : Config).apiKey = "" ∧
      ∀ s, (fun _ => (none : Option ConfigValue)) "api_key" = some (.str s) → s = "") ∧
    ((NewClient ⟨"", "", "", 0, 0⟩).apiKey = "" ∧
      ((NewClient ⟨"", "", "", 0, 0⟩).Configure (fun _ => none)).2 =
        some (.validation "api_key is required")) :=
  ⟨⟨rfl, fun s h => by simp at h⟩,
    missing_credential_reported ⟨"", "", "", 0, 0⟩ (fun _ => none) rfl
      (fun s h => by simp at h)⟩

/-- C4: when a sent request comes back with a non-success status, the call
fails with the transport-class error that carries the status and, when the
body unmarshals as an error object, the provider's message. -/
theorem nonsuccess_status_transport_error (c : Client) (req : ChatCompletionRequest)
    (w : HttpWorld) (status : Nat) (body : Body)
    (hm : req.model ≠ "") (hmsg : req.messages ≠ [])
    (hn : w.newRequestFails = false)
    (ho : w.outcome = .response status body)
    (hs : status ≠ 200) :
    (c.ChatCompletion req w).result = .error (apiFailure status body) ∧
    (apiFailure status body).isTransport = true ∧
    (apiFailure status body).statusOf = some status ∧
    (∀ eo, body.asError = some eo → apiFailure status body = .apiError status eo.message) := by
  have hlen : req.messages.length ≠ 0 := by
    simpa [List.length_eq_zero] using hmsg
  refine ⟨?_, ?_, ?_, ?_⟩
  · simp only [Client.ChatCompletion]
    rw [if_neg hm, if_neg hlen, if_neg (by simp [hn]), ho]
    simp only []
    rw [if_pos (by simp [statusOK, hs])]
    unfold apiFailure
    rcases body.asError with _ | eo <;> simp
  · unfold apiFailure
    rcases body.asError with _ | eo <;> simp [ClientError.isTransport]
  · unfold apiFailure
    rcases body.asError with _ | eo <;> simp [ClientError.statusOf]
  · intro eo heo
    unfold apiFailure
    rw [heo]

/-- Witness for C4: a 404 reply whose body parses as an error object. -/
theorem nonsuccess_status_transport_error_witness :
    ((⟨"gpt-4", [⟨"user", "q"⟩], none, none, none, false⟩ : ChatCompletionRequest).model ≠ "" ∧
      (⟨"gpt-4", [⟨"user", "q"⟩], none, none, none, false⟩ : ChatCompletionRequest).messages ≠ [] ∧
      (⟨false, .response 404 ⟨"nf", some ⟨"not found", "invalid_request_error", "404"⟩, none⟩⟩ :
        HttpWorld).newRequestFails = false ∧
      (⟨false, .response 404 ⟨"nf", some ⟨"not found", "invalid_request_error", "404"⟩, none⟩⟩ :
        HttpWorld).outcome =
        .response 404 ⟨"nf", some ⟨"not found", "invalid_request_error", "404"⟩, none⟩ ∧
      (404 : Nat) ≠ 200) ∧
    ((wClient.ChatCompletion ⟨"gpt-4", [⟨"user", "q"⟩], none, none, none, false⟩
        ⟨false, .response 404 ⟨"nf", some ⟨"not found", "invalid_request_error", "404"⟩, none⟩⟩).result =
      .error (apiFailure 404 ⟨"nf", some ⟨"not found", "invalid_request_error", "404"⟩, none⟩) ∧
      (apiFailure 404 ⟨"nf", some ⟨"not found", "invalid_request_error", "404"⟩, none⟩).isTransport = true ∧
      (apiFailure 404 ⟨"nf", some ⟨"not found", "invalid_request_error", "404"⟩, none⟩).statusOf = some 404 ∧
      (∀ eo, (⟨"nf", some ⟨"not found", "invalid_request_error", "404"⟩, none⟩ : Body).asError = some eo →
        apiFailure 404 ⟨"nf", some ⟨"not found", "invalid_request_error", "404"⟩, none⟩ =
          .apiError 404 eo.message)) :=
  ⟨⟨by decide, by decide, rfl, rfl, by decide⟩,
    nonsuccess_status_transport_error wClient ⟨"gpt-4", [⟨"user", "q"⟩], none, none, none, false⟩
      ⟨false, .response 404 ⟨"nf", some ⟨"not found", "invalid_request_error", "404"⟩, none⟩⟩
      404 ⟨"nf", some ⟨"not found", "invalid_request_error", "404"⟩, none⟩
      (by decide) (by decide) rfl rfl (by decide)⟩

/-- C8: when the underlying ChatCompletion succeeds, SendMessage unwraps
the first choice — content from the first choice's message, token count
from usage.totalTokens, model and created from the response — and fails
with the no-choices error when the choice list is empty. -/
theorem sendMessage_unwraps_first_choice (c : Client) (req : Request) (w : HttpWorld)
    (resp : ChatCompletionResponse)
    (h : (c.ChatCompletion (c.toChatRequest req) w).result = .ok resp) :
    (∀ ch rest, resp.choices = ch :: rest →
      (c.SendMessage req w).response =
        some ⟨ch.message.content, resp.usage.totalTokens, resp.model, resp.created, none⟩ ∧
      (c.SendMessage req w).err = none) ∧
    (resp.choices = [] →
      (c.SendMessage req w).err = some .noChoices ∧
      (c.SendMessage req w).response = some ⟨"", 0, "", 0, some .noChoices⟩) := by
  constructor
  · intro ch rest hc
    constructor <;> simp [Client.SendMessage, h, hc]
  · intro hc
    constructor <;> simp [Client.SendMessage, h, hc]

/-- Witness for C8 at a concrete 200 reply with one assistant choice. -/
theorem sendMessage_unwraps_first_choice_witness :
    ((wClient.ChatCompletion
        (wClient.toChatRequest ⟨"gpt-4", [⟨"user", "q"⟩], none, none, none, false⟩)
        wOkWorld).result = .ok wResp) ∧
    ((∀ ch rest, wResp.choices = ch :: rest →
        (wClient.SendMessage ⟨"gpt-4", [⟨"user", "q"⟩], none, none, none, false⟩ wOkWorld).response =
          some ⟨ch.message.content, wResp.usage.totalTokens, wResp.model, wResp.created, none⟩ ∧
        (wClient.SendMessage ⟨"gpt-4", [⟨"user", "q"⟩], none, none, none, false⟩ wOkWorld).err = none) ∧
      (wResp.choices = [] →
        (wClient.SendMessage ⟨"gpt-4", [⟨"user", "q"⟩], none, none, none, false⟩ wOkWorld).err =
          some .noChoices ∧
        (wClient.SendMessage ⟨"gpt-4", [⟨"user", "q"⟩], none, none, none, false⟩ wOkWorld).response =
          some ⟨"", 0, "", 0, some .noChoices⟩)) :=
  ⟨by decide,
    sendMessage_unwraps_first_choice wClient ⟨"gpt-4", [⟨"user", "q"⟩], none, none, none, false⟩
      wOkWorld wResp (by decide)⟩

/-- C10: whenever SendMessage fails, it returns the non-nil zero Response
holding that same error alongside the error value. -/
theorem sendMessage_failure_response (c : Client) (req : Request) (w : HttpWorld)
    (e : ClientError) (h : (c.SendMessage req w).err = some e) :
    (c.SendMessage req w).response = some ⟨"", 0, "", 0, some e⟩ := by
  rcases hr : (c.ChatCompletion (c.toChatRequest req) w).result with e' | r
  · simp only [Client.SendMessage, hr] at h ⊢
    simp at h
    simp [h]
  · rcases hc : r.choices with _ | ⟨ch, rest⟩
    · simp only [Client.SendMessage, hr, hc] at h ⊢
      simp at h
      simp [← h]
    · simp only [Client.SendMessage, hr, hc] at h
      simp at h

/-- Witness for C10 at a concrete failing call (empty message list). -/
theorem sendMessage_failure_response_witness :
    ((wClient.SendMessage ⟨"", [], none, none, none, false⟩ wOkWorld).err =
      some (.validation "messages are required")) ∧
    ((wClient.SendMessage ⟨"", [], none, none, none, false⟩ wOkWorld).response =
      some ⟨"", 0, "", 0, some (.validation "messages are required")⟩) :=
  ⟨by decide,
    sendMessage_failure_response wClient ⟨"", [], none, none, none, false⟩ wOkWorld
      (.validation "messages are required") (by decide)⟩

end OpenAI

namespace Chat

open OpenAI

theorem lookupConv_cons (k : Nat) (v : Conversation) (rest : List (Nat × Conversation))
    (id : Nat) :
    lookupConv ((k, v) :: rest) id = if k = id then some v else lookupConv rest id := rfl

theorem updateConv_cons (k : Nat) (v : Conversation) (rest : List (Nat × Conversation))
    (id : Nat) (c : Conversation) :
    updateConv ((k, v) :: rest) id c =
      (if k = id then (id, c) else (k, v)) :: updateConv rest id c := by
  by_cases hk : k = id <;> simp [updateConv, hk]

theorem lookupConv_update_eq (l : List (Nat × Conversation)) (id : Nat)
    (conv c : Conversation) (h : lookupConv l id = some conv) :
    lookupConv (updateConv l id c) id = some c := by
  induction l with
  | nil => simp [lookupConv] at h
  | cons p rest ih =>
    rcases p with ⟨k, v⟩
    rw [updateConv_cons]
    rw [lookupConv_cons] at h
    by_cases hk : k = id
    · rw [if_pos hk, lookupConv_cons, if_pos rfl]
    · rw [if_neg hk] at h
      rw [if_neg hk, lookupConv_cons, if_neg hk]
      exact ih h

theorem lookupConv_append_new (l : List (Nat × Conversation)) (id : Nat)
    (c : Conversation) (h : lookupConv l id = none) :
    lookupConv (l ++ [(id, c)]) id = some c := by
  induction l with
  | nil => simp [lookupConv]
  | cons p rest ih =>
    rcases p with ⟨k, v⟩
    rw [lookupConv_cons] at h
    rw [List.cons_append, lookupConv_cons]
    by_cases hk : k = id
    · rw [if_pos hk] at h
      simp at h
    · rw [if_neg hk] at h
      rw [if_neg hk]
      exact ih h

theorem countRole_append_two (r : String) (msgs : List Message) (a b : Message) :
    countRole r (msgs ++ [a, b]) =
      countRole r msgs + (if a.role = r then 1 else 0) + (if b.role = r then 1 else 0) := by
  by_cases ha : a.role = r <;> by_cases hb : b.role = r <;>
    simp [countRole, List.filter_append, List.filter, ha, hb]

theorem sendMessage_ok_step (backend : CompletionBackend)
    (H : ∀ req resp ch rest, backend req = .ok resp → resp.choices = ch :: rest →
      ch.message.role = "assistant")
    (ct : Controller) (id : Nat) (t : String) (conv : Conversation)
    (ct2 : Controller) (r : ChatResponse)
    (hc : lookupConv ct.conversations id = some conv)
    (h : ct.SendMessage backend id t = (ct2, .ok r)) :
    (∃ convA, lookupConv ct2.conversations id = some convA ∧
      convA.messages = conv.messages ++ [⟨"user", t⟩, r.message]) ∧
    ct2.totalMessages = ct.totalMessages + 2 ∧
    r.message.role = "assistant" := by
  simp only [Controller.SendMessage, hc] at h
  split at h
  · simp at h
  · rename_i resp heq
    split at h
    · simp at h
    · rename_i ch rest hch
      injection h with hA hB
      injection hB with hB
      subst hA
      subst hB
      refine ⟨?_, rfl, H _ resp ch rest heq hch⟩
      have h1 :
          lookupConv
            (updateConv ct.conversations id
              { conv with messages := conv.messages ++ [⟨"user", t⟩] }) id =
          some { conv with messages := conv.messages ++ [⟨"user", t⟩] } :=
        lookupConv_update_eq _ _ _ _ hc
      have h2 := lookupConv_update_eq _ id _
        { conv with
            messages := (conv.messages ++ [⟨"user", t⟩]) ++ [ch.message] } h1
      exact ⟨_, h2, by simp⟩

theorem sendAll_counts (backend : CompletionBackend)
    (H : ∀ req resp ch rest, backend req = .ok resp → resp.choices = ch :: rest →
      ch.message.role = "assistant")
    (id : Nat) :
    ∀ (msgs : List String) (ct ctN : Controller) (conv : Conversation),
      lookupConv ct.conversations id = some conv →
      sendAll backend id msgs ct = (ctN, true) →
      ∃ conv2, lookupConv ctN.conversations id = some conv2 ∧
        conv2.messages.length = conv.messages.length + 2 * msgs.length ∧
        countRole "user" conv2.messages = countRole "user" conv.messages + msgs.length ∧
        countRole "assistant" conv2.messages =
          countRole "assistant" conv.messages + msgs.length ∧
        ctN.totalMessages = ct.totalMessages + 2 * msgs.length := by
  intro msgs
  induction msgs with
  | nil =>
    intro ct ctN conv hc h
    simp only [sendAll] at h
    injection h with h1 _
    subst h1
    exact ⟨conv, hc, by simp, by simp, by simp, by simp⟩
  | cons t rest ih =>
    intro ct ctN conv hc h
    simp only [sendAll] at h
    split at h
    · rename_i r heq
      have hp : ct.SendMessage backend id t = ((ct.SendMessage backend id t).1, .ok r) := by
        rw [← heq]
      obtain ⟨⟨convA, hlA, hmsgA⟩, hcount, hrole⟩ :=
        sendMessage_ok_step backend H ct id t conv _ r hc hp
      obtain ⟨conv2, hc2, hlen2, hu2, ha2, hm2⟩ := ih _ _ _ hlA h
      refine ⟨conv2, hc2, ?_, ?_, ?_, ?_⟩
      · rw [hlen2, hmsgA]
        simp only [List.length_append, List.length_cons, List.length_nil]
        omega
      · rw [hu2, hmsgA, countRole_append_two]
        simp [hrole]
        all_goals omega
      · rw [ha2, hmsgA, countRole_append_two]
        simp [hrole]
        all_goals omega
      · rw [hm2, hcount]
        simp only [List.length_cons]
        omega
    · simp at h

end Chat

namespace Chat

open OpenAI

/-- C9 (spec-modelled; the chat package's source is not in the tree):
with a backend whose successful replies lead with an assistant message,
creating a conversation in a controller with a fresh next id and then
completing N successful SendMessage calls on it makes the summary report
messageCount = (1 if seeded with a system prompt else 0) + 2N,
userMessages = N and assistantMessages = N; the aggregate message counter
grows by 2N over the N calls, and every successful SendMessage call
increments it by exactly 2. -/
theorem controller_counts_after_sends (backend : CompletionBackend)
    (ct0 ct1 ctN : Controller) (prompt : Option String) (conv : Conversation)
    (msgs : List String)
    (H : ∀ req resp ch rest, backend req = .ok resp → resp.choices = ch :: rest →
      ch.message.role = "assistant")
    (hfresh : lookupConv ct0.conversations ct0.nextID = none)
    (hcreate : ct0.CreateConversation prompt = (ct1, conv))
    (hsend : sendAll backend conv.id msgs ct1 = (ctN, true)) :
    (∃ s, ctN.GetConversationSummary conv.id = some s ∧
      s.messageCount = (if prompt.isSome then 1 else 0) + 2 * msgs.length ∧
      s.userMessages = msgs.length ∧
      s.assistantMessages = msgs.length) ∧
    ctN.totalMessages = ct0.totalMessages + 2 * msgs.length ∧
    (∀ ct id t ct2 r, Controller.SendMessage ct backend id t = (ct2, .ok r) →
      ct2.totalMessages = ct.totalMessages + 2) := by
  have hpercall : ∀ ct id t ct2 r,
      Controller.SendMessage ct backend id t = (ct2, .ok r) →
      ct2.totalMessages = ct.totalMessages + 2 := by
    intro ct id t ct2 r h
    rcases hc : lookupConv ct.conversations id with _ | conv'
    · simp [Controller.SendMessage, hc] at h
    · exact (sendMessage_ok_step backend H ct id t conv' ct2 r hc h).2.1
  rcases prompt with _ | p
  · simp only [Controller.CreateConversation] at hcreate
    injection hcreate with h1 h2
    subst h1
    subst h2
    have hlook := lookupConv_append_new ct0.conversations ct0.nextID
      ⟨ct0.nextID, []⟩ hfresh
    obtain ⟨conv2, hc2, hlen, hu, ha, hm⟩ :=
      sendAll_counts backend H ct0.nextID msgs _ ctN ⟨ct0.nextID, []⟩ hlook hsend
    refine ⟨⟨⟨conv2.messages.length, countRole "user" conv2.messages,
      countRole "assistant" conv2.messages,
      (conv2.messages.foldl (fun a m => a + m.content.length) 0) / 4⟩,
      ?_, ?_, ?_, ?_⟩, ?_, hpercall⟩
    · simp [Controller.GetConversationSummary, hc2]
    · simp at hlen
      simpa using hlen
    · simp [countRole] at hu
      simpa using hu
    · simp [countRole] at ha
      simpa using ha
    · simpa using hm
  · simp only [Controller.CreateConversation] at hcreate
    injection hcreate with h1 h2
    subst h1
    subst h2
    have hlook := lookupConv_append_new ct0.conversations ct0.nextID
      ⟨ct0.nextID, [⟨"system", p⟩]⟩ hfresh
    obtain ⟨conv2, hc2, hlen, hu, ha, hm⟩ :=
      sendAll_counts backend H ct0.nextID msgs _ ctN ⟨ct0.nextID, [⟨"system", p⟩]⟩
        hlook hsend
    refine ⟨⟨⟨conv2.messages.length, countRole "user" conv2.messages,
      countRole "assistant" conv2.messages,
      (conv2.messages.foldl (fun a m => a + m.content.length) 0) / 4⟩,
      ?_, ?_, ?_, ?_⟩, ?_, hpercall⟩
    · simp [Controller.GetConversationSummary, hc2]
    · simp at hlen
      simp [hlen]
      all_goals omega
    · simp [countRole] at hu
      simpa using hu
    · simp [countRole] at ha
      simpa using ha
    · simpa using hm

end Chat

namespace Chat

open OpenAI

/-- Witness for C9: a fresh controller, a system prompt, and one
successful send against a backend returning a single assistant choice. -/
theorem controller_counts_after_sends_witness :
    ((∀ req resp ch rest, wBackend req = .ok resp → resp.choices = ch :: rest →
        ch.message.role = "assistant") ∧
      lookupConv (NewController wCfg).conversations (NewController wCfg).nextID = none ∧
      (NewController wCfg).CreateConversation (some "sys") = (wCt1, wConv) ∧
      sendAll wBackend wConv.id ["a"] wCt1 = (wCtN, true)) ∧
    ((∃ s, wCtN.GetConversationSummary wConv.id = some s ∧
        s.messageCount = (if (some "sys").isSome then 1 else 0) + 2 * (["a"] : List String).length ∧
        s.userMessages = (["a"] : List String).length ∧
        s.assistantMessages = (["a"] : List String).length) ∧
      wCtN.totalMessages = (NewController wCfg).totalMessages + 2 * (["a"] : List String).length ∧
      (∀ ct id t ct2 r, Controller.SendMessage ct wBackend id t = (ct2, .ok r) →
        ct2.totalMessages = ct.totalMessages + 2)) :=
  ⟨⟨by
      intro req resp ch rest h1 h2
      simp [wBackend] at h1
      subst h1
      simp [wResp] at h2
      obtain ⟨h2a, h2b⟩ := h2
      subst h2a
      rfl,
    by decide, by decide, by decide⟩,
    controller_counts_after_sends wBackend (NewController wCfg) wCt1 wCtN (some "sys")
      wConv ["a"]
      (by
        intro req resp ch rest h1 h2
        simp [wBackend] at h1
        subst h1
        simp [wResp] at h2
        obtain ⟨h2a, h2b⟩ := h2
        subst h2a
        rfl)
      (by decide) (by decide) (by decide)⟩

end Chat
